import Mathlib

/-!
# Verification of the `inventoryApi` product CRUD service

Shallow embedding of the repository's three source files:

* `src/models/producto.js` — the Mongoose `ProductSchema`
  (`name : String required`, `price : Number required`,
  `quantity : Number required`, `brand : String default 0`,
  `timestamps : true`);
* `src/routes/productos.js` — the five Express route handlers
  (`POST /`, `GET /`, `GET /:id`, `PUT /:id`, `DELETE /:id`);
* `src/app.js` — server wiring (no behaviour relevant to the claims).

The route handlers delegate to the Mongoose model operations
(`new Producto(body).save()`, `Producto.find()`, `Producto.findById`,
`Producto.findByIdAndUpdate(id, body, {new: true})`,
`Producto.findByIdAndDelete`).  Those library operations are embedded
here following Mongoose's documented semantics: document construction
casts each supplied schema path to its declared type and applies
defaults (the `brand` default `0` is cast to the string `"0"`),
`save` runs required-path validation client-side before touching the
store, query operations first cast the id (a well-formed ObjectId is
24 hex characters) and the update object, and `timestamps : true`
sets `createdAt`/`updatedAt` on insert and refreshes `updatedAt` on
`findOneAndUpdate`.  Store/connectivity failure is modelled by an
explicit `fail` flag at the point of each store call.
-/

namespace InventoryApi

/-- A JSON value supplied for one field of a request body: a string, a
number (modelled as an integer; no arithmetic is ever performed on
values), or a non-primitive value (object/array) which fails every
scalar cast. -/
inductive JVal where
  | jstr (s : String)
  | jnum (n : Int)
  | jobj
deriving DecidableEq, Repr

/-- Mongoose cast of a JSON value to a `String` schema path: strings
pass through, numbers are stringified, non-primitives fail. -/
def castString : JVal → Option String
  | .jstr s => some s
  | .jnum n => some (toString n)
  | .jobj => none

/-- Mongoose cast of a JSON value to a `Number` schema path: numbers
pass through, numeric strings parse, everything else fails. -/
def castNumber : JVal → Option Int
  | .jnum n => some n
  | .jstr s => s.toInt?
  | .jobj => none

/-- A request body (`req.body`): each schema path is either absent or
carries a JSON value.  Paths not in the schema are stripped by
Mongoose's strict mode and are not modelled. -/
structure Payload where
  name : Option JVal
  price : Option JVal
  quantity : Option JVal
  brand : Option JVal
deriving DecidableEq, Repr

/-- A persisted product document, per `ProductSchema` plus the
store-generated `_id` and the `timestamps : true` fields. -/
structure Product where
  id : String
  name : String
  price : Int
  quantity : Int
  brand : String
  createdAt : Nat
  updatedAt : Nat
deriving DecidableEq, Repr

/-- The MongoDB collection state: the stored documents and a counter
feeding ObjectId generation. -/
structure Store where
  docs : List Product
  nextId : Nat
deriving DecidableEq, Repr

/-- Errors thrown by the model layer: `validation` from document
`save` (missing required path or failed document cast), `castErr`
from query-time casting (malformed ObjectId or ill-typed update
value), `storeFail` from store connectivity. -/
inductive StoreErr where
  | validation (msg : String)
  | castErr (msg : String)
  | storeFail (msg : String)
deriving DecidableEq, Repr

/-- The message carried by a thrown error (`err.message`). -/
def errText : StoreErr → String
  | .validation m => m
  | .castErr m => m
  | .storeFail m => m

/-- Cast one optional body field: an absent field stays absent, a
present field must cast. -/
def castOpt {α : Type} (cast : JVal → Option α) : Option JVal → Except String (Option α)
  | none => Except.ok none
  | some v =>
    match cast v with
    | some a => Except.ok (some a)
    | none => Except.error "Cast failed"

/-- Cast a whole request body against `ProductSchema`, field by
field; the first failing cast aborts. -/
def castPayload (p : Payload) : Except String (Option String × Option Int × Option Int × Option String) :=
  match castOpt castString p.name with
  | .error m => .error m
  | .ok nv =>
    match castOpt castNumber p.price with
    | .error m => .error m
    | .ok pv =>
      match castOpt castNumber p.quantity with
      | .error m => .error m
      | .ok qv =>
        match castOpt castString p.brand with
        | .error m => .error m
        | .ok bv => .ok (nv, pv, qv, bv)

/-- One supplied field carries a value that violates its schema type
constraint (its cast fails). -/
def fieldIllTyped {α : Type} (cast : JVal → Option α) : Option JVal → Bool
  | none => false
  | some v => (cast v).isNone

/-- Some supplied field of the body violates its schema type
constraint. -/
def payloadIllTyped (p : Payload) : Bool :=
  fieldIllTyped castString p.name || fieldIllTyped castNumber p.price ||
    fieldIllTyped castNumber p.quantity || fieldIllTyped castString p.brand

/-- Hexadecimal digit character for a value below 16. -/
def hexChar (n : Nat) : Char :=
  if n < 10 then Char.ofNat (48 + n) else Char.ofNat (87 + n)

/-- The `k` low hexadecimal digits of `n`, most significant first. -/
def hexDigitsFix : Nat → Nat → List Char
  | 0, _ => []
  | k + 1, n => hexDigitsFix k (n / 16) ++ [hexChar (n % 16)]

/-- The store-generated ObjectId for creation counter `n`: 24 hex
characters. -/
def genId (n : Nat) : String :=
  String.mk (hexDigitsFix 24 n)

/-- Is `c` a lowercase hexadecimal digit? -/
def isHex (c : Char) : Bool :=
  c.isDigit || (('a' ≤ c) && (c ≤ 'f'))

/-- A well-formed ObjectId string: exactly 24 hex characters.
`findById`/`findByIdAndUpdate`/`findByIdAndDelete` throw a cast error
on anything else. -/
def validId (s : String) : Bool :=
  s.length == 24 && s.toList.all isHex

/-- The schema default for `brand`: the declared default `0` cast to
the path's `String` type, i.e. the string `"0"`. -/
def brandDefault : String :=
  (castString (JVal.jnum 0)).getD ""

/-- `Producto.findById` style lookup inside the document list: first
document whose id matches. -/
def findDoc (docs : List Product) (i : String) : Option Product :=
  docs.find? (fun d => d.id == i)

/-- Replace the first document with the given id by `f` of it. -/
def updateFirst (docs : List Product) (i : String) (f : Product → Product) : List Product :=
  match docs with
  | [] => []
  | d :: rest => if d.id == i then f d :: rest else d :: updateFirst rest i f

/-- Remove the first document with the given id. -/
def removeFirst (docs : List Product) (i : String) : List Product :=
  match docs with
  | [] => []
  | d :: rest => if d.id == i then rest else d :: removeFirst rest i

/-- Apply a cast update object to a document (`$set` semantics):
supplied fields are replaced, absent fields keep their value, and
`timestamps : true` refreshes `updatedAt`. -/
def setFields (r : Product) (nv : Option String) (pv qv : Option Int) (bv : Option String)
    (now : Nat) : Product :=
  { r with
    name := nv.getD r.name
    price := pv.getD r.price
    quantity := qv.getD r.quantity
    brand := bv.getD r.brand
    updatedAt := now }

/-- `new Producto(req.body)` + `producto.save()`: cast the body,
apply the `brand` default, check the required paths (`name`, `price`,
`quantity`), then insert with a fresh id and both timestamps set to
`now`.  Validation runs client-side, before the store is reached, so
a connectivity failure (`fail`) only surfaces on valid documents. -/
def create (s : Store) (p : Payload) (fail : Bool) (now : Nat) :
    Except StoreErr (Product × Store) :=
  match castPayload p with
  | .error m => .error (.validation m)
  | .ok (nv, pv, qv, bv) =>
    match nv, pv, qv with
    | some nm, some pr, some qt =>
      if fail then .error (.storeFail "connection lost")
      else
        let r : Product :=
          { id := genId s.nextId, name := nm, price := pr, quantity := qt,
            brand := bv.getD brandDefault, createdAt := now, updatedAt := now }
        .ok (r, { docs := s.docs ++ [r], nextId := s.nextId + 1 })
    | _, _, _ => .error (.validation "Producto validation failed")

/-- `Producto.findById(id)`: throws a cast error on a malformed id,
otherwise returns the matching document or `null`. -/
def findById (s : Store) (i : String) (fail : Bool) : Except StoreErr (Option Product) :=
  if validId i then
    if fail then .error (.storeFail "connection lost")
    else .ok (findDoc s.docs i)
  else .error (.castErr "Cast to ObjectId failed")

/-- `Producto.findByIdAndUpdate(id, body, {new: true})`: casts the id
and the update object (throwing a cast error on failure; validators
beyond casting do not run on update), then applies a `$set` of the
supplied fields to the matching document — refreshing `updatedAt` —
and returns the post-update document, or `null` when no document
matches. -/
def findByIdAndUpdate (s : Store) (i : String) (p : Payload) (fail : Bool) (now : Nat) :
    Except StoreErr (Option Product × Store) :=
  if validId i then
    match castPayload p with
    | .error _ => .error (.castErr "Cast failed")
    | .ok (nv, pv, qv, bv) =>
      if fail then .error (.storeFail "connection lost")
      else
        match findDoc s.docs i with
        | none => .ok (none, s)
        | some r =>
          .ok (some (setFields r nv pv qv bv now),
            { s with docs := updateFirst s.docs i (fun d => setFields d nv pv qv bv now) })
  else .error (.castErr "Cast to ObjectId failed")

/-- `Producto.findByIdAndDelete(id)`: casts the id, then removes and
returns the matching document, or returns `null` when no document
matches. -/
def findByIdAndDelete (s : Store) (i : String) (fail : Bool) :
    Except StoreErr (Option Product × Store) :=
  if validId i then
    if fail then .error (.storeFail "connection lost")
    else
      match findDoc s.docs i with
      | none => .ok (none, s)
      | some r => .ok (some r, { s with docs := removeFirst s.docs i })
  else .error (.castErr "Cast to ObjectId failed")

/-- A JSON response body: a single record, a record list, an
`{error: msg}` object, or a `{message: msg}` object. -/
inductive Body where
  | record (p : Product)
  | records (l : List Product)
  | errMsg (e : String)
  | message (m : String)
deriving DecidableEq, Repr

/-- An HTTP response: status code and JSON body. -/
structure HttpResponse where
  status : Nat
  body : Body
deriving DecidableEq, Repr

/-- `router.post('/')`: try `new Producto(req.body).save()`; on
success respond 201 with the document, on any thrown error respond
400 with `{error: err.message}`. -/
def postProducto (s : Store) (p : Payload) (fail : Bool) (now : Nat) : HttpResponse × Store :=
  match create s p fail now with
  | .ok (r, s1) => (⟨201, .record r⟩, s1)
  | .error e => (⟨400, .errMsg (errText e)⟩, s)

/-- `router.get('/')`: `Producto.find()`; 200 with the list, or 500
with `{error: err.message}` on a thrown error. -/
def getProductos (s : Store) (fail : Bool) : HttpResponse :=
  if fail then ⟨500, .errMsg "connection lost"⟩ else ⟨200, .records s.docs⟩

/-- `router.get('/:id')`: `Producto.findById`; 404 with
`{error: 'Producto no encontrado'}` on `null`, 200 with the document,
500 with `{error: err.message}` on any thrown error. -/
def getProductoById (s : Store) (i : String) (fail : Bool) : HttpResponse :=
  match findById s i fail with
  | .ok none => ⟨404, .errMsg "Producto no encontrado"⟩
  | .ok (some r) => ⟨200, .record r⟩
  | .error e => ⟨500, .errMsg (errText e)⟩

/-- `router.put('/:id')`: `Producto.findByIdAndUpdate(id, body,
{new: true})`; 404 on `null`, 200 with the updated document, 400 with
`{error: err.message}` on any thrown error. -/
def putProducto (s : Store) (i : String) (p : Payload) (fail : Bool) (now : Nat) :
    HttpResponse × Store :=
  match findByIdAndUpdate s i p fail now with
  | .ok (none, s1) => (⟨404, .errMsg "Producto no encontrado"⟩, s1)
  | .ok (some r, s1) => (⟨200, .record r⟩, s1)
  | .error e => (⟨400, .errMsg (errText e)⟩, s)

/-- `router.delete('/:id')`: `Producto.findByIdAndDelete`; 404 on
`null`, 200 with `{message: 'Producto eliminado'}`, 500 with
`{error: err.message}` on any thrown error. -/
def deleteProducto (s : Store) (i : String) (fail : Bool) : HttpResponse × Store :=
  match findByIdAndDelete s i fail with
  | .ok (none, s1) => (⟨404, .errMsg "Producto no encontrado"⟩, s1)
  | .ok (some _, s1) => (⟨200, .message "Producto eliminado"⟩, s1)
  | .error e => (⟨500, .errMsg (errText e)⟩, s)

/-- The empty store. -/
def store0 : Store := ⟨[], 0⟩

/-- A creation payload carrying all three required fields, `brand`
omitted. -/
def demoPayload : Payload := ⟨some (.jstr "A"), some (.jnum 1), some (.jnum 2), none⟩

/-- The document that `demoPayload` creates in the empty store at
time 3. -/
def demoProduct : Product := ⟨genId 0, "A", 1, 2, "0", 3, 3⟩

/-- The store after that creation. -/
def demoStore : Store := ⟨[demoProduct], 1⟩

/-- An update body whose `price` value is a non-primitive and so
violates the `Number` type constraint. -/
def illPayload : Payload := ⟨none, some .jobj, none, none⟩

/-- An empty update body (every field castable, vacuously). -/
def emptyPayload : Payload := ⟨none, none, none, none⟩

/-! ## Helper lemmas about id generation and lookup -/

theorem hexDigitsFix_length (k : Nat) : ∀ n : Nat, (hexDigitsFix k n).length = k := by
  induction k with
  | zero => intro n; rfl
  | succ k ih =>
    intro n
    simp [hexDigitsFix, ih (n / 16)]

theorem isHex_hexChar_lt : ∀ m : Fin 16, isHex (hexChar m.val) = true := by
  decide

theorem hexDigitsFix_all_isHex (k : Nat) : ∀ n : Nat, (hexDigitsFix k n).all isHex = true := by
  induction k with
  | zero => intro n; rfl
  | succ k ih =>
    intro n
    have hm : n % 16 < 16 := Nat.mod_lt _ (by norm_num)
    simp [hexDigitsFix, List.all_append, ih (n / 16)]
    have := isHex_hexChar_lt ⟨n % 16, hm⟩
    simpa using this

theorem validId_genId (n : Nat) : validId (genId n) = true := by
  show ((hexDigitsFix 24 n).length == 24 && (hexDigitsFix 24 n).all isHex) = true
  simp [hexDigitsFix_length, hexDigitsFix_all_isHex]

theorem genId_length (n : Nat) : (genId n).length = 24 := by
  show (hexDigitsFix 24 n).length = 24
  exact hexDigitsFix_length 24 n

theorem genId_ne_nil (n : Nat) : genId n ≠ "" := by
  intro h
  have h2 := genId_length n
  rw [h] at h2
  exact absurd h2 (by decide)

theorem findDoc_eq_none (docs : List Product) (i : String)
    (h : ∀ d ∈ docs, d.id ≠ i) : findDoc docs i = none := by
  rw [findDoc, List.find?_eq_none]
  intro d hd
  simp [h d hd]

theorem findDoc_append_fresh (docs : List Product) (r : Product) (i : String)
    (h : ∀ d ∈ docs, d.id ≠ i) (hr : r.id = i) :
    findDoc (docs ++ [r]) i = some r := by
  induction docs with
  | nil => simp [findDoc, List.find?, hr]
  | cons d rest ih =>
    have hb : (d.id == i) = false := by simp [h d (by simp)]
    simpa [findDoc, List.find?, hb] using ih (fun e he => h e (by simp [he]))

theorem findDoc_updateFirst (docs : List Product) (i : String) (f : Product → Product)
    (hf : ∀ d, (f d).id = d.id) :
    findDoc (updateFirst docs i f) i = (findDoc docs i).map f := by
  induction docs with
  | nil => rfl
  | cons d rest ih =>
    by_cases h : d.id = i
    · have hb : (d.id == i) = true := by simp [h]
      have hb2 : ((f d).id == i) = true := by simp [hf d, h]
      simp [updateFirst, findDoc, List.find?, hb, hb2]
    · have hb : (d.id == i) = false := by simp [h]
      simpa [updateFirst, findDoc, List.find?, hb] using ih

theorem findDoc_removeFirst (docs : List Product) (i : String)
    (hnd : (docs.map Product.id).Nodup) :
    findDoc (removeFirst docs i) i = none := by
  induction docs with
  | nil => rfl
  | cons d rest ih =>
    rw [List.map_cons, List.nodup_cons] at hnd
    obtain ⟨hnotin, hnd2⟩ := hnd
    by_cases h : d.id = i
    · have : removeFirst (d :: rest) i = rest := by simp [removeFirst, h]
      rw [this]
      refine findDoc_eq_none rest i (fun e he hei => hnotin ?_)
      rw [← h] at hei
      exact hei ▸ List.mem_map_of_mem Product.id he
    · have hb : (d.id == i) = false := by simp [h]
      have : removeFirst (d :: rest) i = d :: removeFirst rest i := by
        simp [removeFirst, h]
      rw [this]
      simpa [findDoc, List.find?, hb] using ih hnd2

/-! ## Helper lemmas about body casting -/

theorem castOpt_illTyped {α : Type} (cast : JVal → Option α) (o : Option JVal)
    (h : fieldIllTyped cast o = true) : castOpt cast o = Except.error "Cast failed" := by
  cases o with
  | none => simp [fieldIllTyped] at h
  | some v =>
    cases hc : cast v with
    | none => simp [castOpt, hc]
    | some a => simp [fieldIllTyped, hc] at h

theorem castOpt_wellTyped {α : Type} (cast : JVal → Option α) (o : Option JVal)
    (h : fieldIllTyped cast o = false) : ∃ a, castOpt cast o = Except.ok a := by
  cases o with
  | none => exact ⟨none, rfl⟩
  | some v =>
    cases hc : cast v with
    | none => simp [fieldIllTyped, hc] at h
    | some a => exact ⟨some a, by simp [castOpt, hc]⟩

theorem castPayload_illTyped (p : Payload) (h : payloadIllTyped p = true) :
    castPayload p = Except.error "Cast failed" := by
  unfold payloadIllTyped at h
  cases h1 : fieldIllTyped castString p.name with
  | true => simp [castPayload, castOpt_illTyped castString p.name h1]
  | false =>
    obtain ⟨nv, e1⟩ := castOpt_wellTyped castString p.name h1
    cases h2 : fieldIllTyped castNumber p.price with
    | true => simp [castPayload, e1, castOpt_illTyped castNumber p.price h2]
    | false =>
      obtain ⟨pv, e2⟩ := castOpt_wellTyped castNumber p.price h2
      cases h3 : fieldIllTyped castNumber p.quantity with
      | true => simp [castPayload, e1, e2, castOpt_illTyped castNumber p.quantity h3]
      | false =>
        obtain ⟨qv, e3⟩ := castOpt_wellTyped castNumber p.quantity h3
        cases h4 : fieldIllTyped castString p.brand with
        | true => simp [castPayload, e1, e2, e3, castOpt_illTyped castString p.brand h4]
        | false =>
          rw [h1, h2, h3, h4] at h
          simp at h

theorem castPayload_ok_inv (p : Payload) (nv : Option String) (pv qv : Option Int)
    (bv : Option String) (h : castPayload p = Except.ok (nv, pv, qv, bv)) :
    castOpt castString p.name = Except.ok nv ∧ castOpt castNumber p.price = Except.ok pv ∧
      castOpt castNumber p.quantity = Except.ok qv ∧
      castOpt castString p.brand = Except.ok bv := by
  unfold castPayload at h
  cases h1 : castOpt castString p.name with
  | error m => simp [h1] at h
  | ok nv0 =>
    simp only [h1] at h
    cases h2 : castOpt castNumber p.price with
    | error m => simp [h2] at h
    | ok pv0 =>
      simp only [h2] at h
      cases h3 : castOpt castNumber p.quantity with
      | error m => simp [h3] at h
      | ok qv0 =>
        simp only [h3] at h
        cases h4 : castOpt castString p.brand with
        | error m => simp [h4] at h
        | ok bv0 =>
          simp only [h4, Except.ok.injEq, Prod.mk.injEq] at h
          obtain ⟨rfl, rfl, rfl, rfl⟩ := h
          exact ⟨rfl, rfl, rfl, rfl⟩

/-! ## Claim theorems -/

/-- C1, counterexample: the claim is false as stated.  A payload with
`name` and `price` present and well-typed but `quantity` omitted is
rejected by `ProductSchema` (`quantity` is a required path), so the
`POST` handler returns 400, not 201. -/
theorem c1_counterexample :
    (postProducto store0 ⟨some (.jstr "Teclado"), some (.jnum 89), none, none⟩ false 0).1.status
        = 400 ∧
      (postProducto store0 ⟨some (.jstr "Teclado"), some (.jnum 89), none, none⟩ false 0).1.status
        ≠ 201 := by
  decide

/-- C1, amended: for every creation payload in which `name`, `price`
and `quantity` are present and well-typed, `create` succeeds: the
`POST` handler returns 201 and appends a persisted record with the
non-empty store-generated id and `createdAt = updatedAt`, even when
`brand` is omitted from the payload. -/
theorem c1_create_valid_201 (s : Store) (now : Nat) (nv pv qv : JVal)
    (nm : String) (pr qt : Int)
    (hn : castString nv = some nm) (hp : castNumber pv = some pr)
    (hq : castNumber qv = some qt) :
    ∃ r : Product,
      postProducto s ⟨some nv, some pv, some qv, none⟩ false now =
        (⟨201, Body.record r⟩, ⟨s.docs ++ [r], s.nextId + 1⟩) ∧
      r.id ≠ "" ∧ r.createdAt = r.updatedAt := by
  refine ⟨⟨genId s.nextId, nm, pr, qt, brandDefault, now, now⟩, ?_, genId_ne_nil s.nextId, rfl⟩
  simp [postProducto, create, castPayload, castOpt, hn, hp, hq]

/-- C1, witness for the amended theorem at a concrete input. -/
theorem c1_witness :
    castString (JVal.jstr "Teclado") = some "Teclado" ∧
      castNumber (JVal.jnum 89) = some 89 ∧ castNumber (JVal.jnum 15) = some 15 ∧
      ∃ r : Product,
        postProducto store0 ⟨some (.jstr "Teclado"), some (.jnum 89), some (.jnum 15), none⟩
            false 7 =
          (⟨201, Body.record r⟩, ⟨store0.docs ++ [r], store0.nextId + 1⟩) ∧
        r.id ≠ "" ∧ r.createdAt = r.updatedAt :=
  ⟨rfl, rfl, rfl,
    c1_create_valid_201 store0 7 (.jstr "Teclado") (.jnum 89) (.jnum 15) "Teclado" 89 15
      rfl rfl rfl⟩

/-- C2: for an existing record id, an update body supplying a field
whose value violates that field's type constraint makes
`findByIdAndUpdate` throw (cast/validation failure), and the `PUT`
handler returns 400 with a JSON error body and leaves the store — and
hence the record — unchanged. -/
theorem c2_put_ill_typed_400 (s : Store) (i : String) (p : Payload) (now : Nat)
    (_hmem : i ∈ s.docs.map Product.id) (hid : validId i = true)
    (hill : payloadIllTyped p = true) :
    (putProducto s i p false now).1.status = 400 ∧
      (∃ m, (putProducto s i p false now).1.body = Body.errMsg m) ∧
      (putProducto s i p false now).2 = s := by
  have hcp := castPayload_illTyped p hill
  simp [putProducto, findByIdAndUpdate, hid, hcp]

/-- C2, witness at a concrete store and ill-typed body. -/
theorem c2_witness :
    (genId 0 ∈ demoStore.docs.map Product.id ∧ validId (genId 0) = true ∧
        payloadIllTyped illPayload = true) ∧
      ((putProducto demoStore (genId 0) illPayload false 9).1.status = 400 ∧
        (∃ m, (putProducto demoStore (genId 0) illPayload false 9).1.body = Body.errMsg m) ∧
        (putProducto demoStore (genId 0) illPayload false 9).2 = demoStore) :=
  ⟨⟨by decide, by decide, by decide⟩,
    c2_put_ill_typed_400 demoStore (genId 0) illPayload 9 (by decide) (by decide) (by decide)⟩

/-- C3, counterexample: the claim is false as stated.  On a malformed
id the `GET /:id` handler catches the ObjectId cast error in its
generic catch branch and responds 500 — not 404 and not 400. -/
theorem c3_counterexample :
    (getProductoById store0 "zzz" false).status = 500 ∧
      ¬((getProductoById store0 "zzz" false).status = 404 ∨
        (getProductoById store0 "zzz" false).status = 400) := by
  decide

/-- C3, amended: for every id string that is not a well-formed
identifier, `getById` fails with the malformed-identifier (InvalidId)
cast error, and the handler surfaces that failure as status 500 with
a JSON error body — never as 404 or 400. -/
theorem c3_invalid_id_500 (s : Store) (i : String) (fail : Bool)
    (h : validId i = false) :
    (getProductoById s i fail).status = 500 ∧
      ∃ m, (getProductoById s i fail).body = Body.errMsg m := by
  simp [getProductoById, findById, h]

/-- C3, witness for the amended theorem at a concrete malformed id. -/
theorem c3_witness :
    validId "zzz" = false ∧
      ((getProductoById store0 "zzz" false).status = 500 ∧
        ∃ m, (getProductoById store0 "zzz" false).body = Body.errMsg m) :=
  ⟨by decide, c3_invalid_id_500 store0 "zzz" false (by decide)⟩

/-- C4: a successful update (`PUT` on the id of a stored record with
a body whose supplied fields all cast) replaces only the supplied
fields: the handler returns 200 with a record that keeps `id` and
`createdAt`, has `updatedAt` refreshed to the call time, keeps the
previous value of every field the body omits, and is exactly the
record now persisted under that id. -/
theorem c4_put_partial_update (s : Store) (i : String) (p : Payload) (now : Nat)
    (r : Product) (nv : Option String) (pv qv : Option Int) (bv : Option String)
    (hid : validId i = true) (hfind : findDoc s.docs i = some r)
    (hcp : castPayload p = Except.ok (nv, pv, qv, bv)) :
    ∃ r' : Product,
      (putProducto s i p false now).1 = ⟨200, Body.record r'⟩ ∧
      r'.id = r.id ∧ r'.createdAt = r.createdAt ∧ r'.updatedAt = now ∧
      (p.name = none → r'.name = r.name) ∧ (p.price = none → r'.price = r.price) ∧
      (p.quantity = none → r'.quantity = r.quantity) ∧
      (p.brand = none → r'.brand = r.brand) ∧
      findDoc (putProducto s i p false now).2.docs i = some r' := by
  obtain ⟨h1, h2, h3, h4⟩ := castPayload_ok_inv p nv pv qv bv hcp
  refine ⟨setFields r nv pv qv bv now, ?_, rfl, rfl, rfl, ?_, ?_, ?_, ?_, ?_⟩
  · simp [putProducto, findByIdAndUpdate, hid, hcp, hfind]
  · intro hn
    rw [hn] at h1
    cases nv with
    | none => simp [setFields]
    | some a => simp [castOpt] at h1
  · intro hp
    rw [hp] at h2
    cases pv with
    | none => simp [setFields]
    | some a => simp [castOpt] at h2
  · intro hq
    rw [hq] at h3
    cases qv with
    | none => simp [setFields]
    | some a => simp [castOpt] at h3
  · intro hb
    rw [hb] at h4
    cases bv with
    | none => simp [setFields]
    | some a => simp [castOpt] at h4
  · have hupd : (putProducto s i p false now).2.docs =
        updateFirst s.docs i (fun d => setFields d nv pv qv bv now) := by
      simp [putProducto, findByIdAndUpdate, hid, hcp, hfind]
    rw [hupd, findDoc_updateFirst s.docs i (fun d => setFields d nv pv qv bv now)
      (fun d => rfl), hfind]
    rfl

/-- C4, witness: updating only `price` of the demo record. -/
theorem c4_witness :
    (validId (genId 0) = true ∧ findDoc demoStore.docs (genId 0) = some demoProduct ∧
        castPayload ⟨none, some (.jnum 42), none, none⟩ =
          Except.ok (none, some 42, none, none)) ∧
      ∃ r' : Product,
        (putProducto demoStore (genId 0) ⟨none, some (.jnum 42), none, none⟩ false 9).1 =
          ⟨200, Body.record r'⟩ ∧
        r'.id = demoProduct.id ∧ r'.createdAt = demoProduct.createdAt ∧ r'.updatedAt = 9 ∧
        ((⟨none, some (.jnum 42), none, none⟩ : Payload).name = none →
          r'.name = demoProduct.name) ∧
        ((⟨none, some (.jnum 42), none, none⟩ : Payload).price = none →
          r'.price = demoProduct.price) ∧
        ((⟨none, some (.jnum 42), none, none⟩ : Payload).quantity = none →
          r'.quantity = demoProduct.quantity) ∧
        ((⟨none, some (.jnum 42), none, none⟩ : Payload).brand = none →
          r'.brand = demoProduct.brand) ∧
        findDoc
            (putProducto demoStore (genId 0) ⟨none, some (.jnum 42), none, none⟩ false 9).2.docs
            (genId 0) =
          some r' :=
  ⟨⟨by decide, by decide, rfl⟩,
    c4_put_partial_update demoStore (genId 0) ⟨none, some (.jnum 42), none, none⟩ 9
      demoProduct none (some 42) none none (by decide) (by decide) rfl⟩

/-- C5: a creation payload missing `name` or missing `price` fails
client-side schema validation inside `save` (a `ValidationError`; the
store is never reached), the `POST` handler returns 400 with a JSON
error body, and no record is persisted. -/
theorem c5_create_missing_required_400 (s : Store) (p : Payload) (fail : Bool) (now : Nat)
    (h : p.name = none ∨ p.price = none) :
    (∃ m, create s p fail now = Except.error (StoreErr.validation m)) ∧
      (postProducto s p fail now).1.status = 400 ∧
      (∃ m, (postProducto s p fail now).1.body = Body.errMsg m) ∧
      (postProducto s p fail now).2 = s := by
  cases hcp : castPayload p with
  | error m => simp [postProducto, create, hcp]
  | ok v =>
    obtain ⟨nv, pv, qv, bv⟩ := v
    obtain ⟨h1, h2, h3, h4⟩ := castPayload_ok_inv p nv pv qv bv hcp
    cases h with
    | inl hn =>
      rw [hn] at h1
      cases nv with
      | none => cases pv <;> cases qv <;> simp [postProducto, create, hcp]
      | some a => simp [castOpt] at h1
    | inr hp =>
      rw [hp] at h2
      cases pv with
      | none => cases nv <;> cases qv <;> simp [postProducto, create, hcp]
      | some a => simp [castOpt] at h2

/-- C5, witness: a payload with `price` missing. -/
theorem c5_witness :
    ((⟨some (.jstr "A"), none, some (.jnum 2), none⟩ : Payload).name = none ∨
        (⟨some (.jstr "A"), none, some (.jnum 2), none⟩ : Payload).price = none) ∧
      ((∃ m, create store0 ⟨some (.jstr "A"), none, some (.jnum 2), none⟩ false 0 =
          Except.error (StoreErr.validation m)) ∧
        (postProducto store0 ⟨some (.jstr "A"), none, some (.jnum 2), none⟩ false 0).1.status
          = 400 ∧
        (∃ m, (postProducto store0 ⟨some (.jstr "A"), none, some (.jnum 2), none⟩
            false 0).1.body = Body.errMsg m) ∧
        (postProducto store0 ⟨some (.jstr "A"), none, some (.jnum 2), none⟩ false 0).2
          = store0) :=
  ⟨Or.inr rfl,
    c5_create_missing_required_400 store0 ⟨some (.jstr "A"), none, some (.jnum 2), none⟩
      false 0 (Or.inr rfl)⟩

/-- C6: create/getById round-trip — when `POST` succeeds with record
`r` (and the generated id is fresh for the store, as store-generated
ids are), an immediately following `GET /:id` on `r.id` against the
post-create store returns 200 with exactly `r`. -/
theorem c6_roundtrip (s : Store) (p : Payload) (now : Nat) (r : Product) (s' : Store)
    (hfresh : ∀ d ∈ s.docs, d.id ≠ genId s.nextId)
    (h : postProducto s p false now = (⟨201, Body.record r⟩, s')) :
    getProductoById s' r.id false = ⟨200, Body.record r⟩ := by
  cases hcp : castPayload p with
  | error m => simp [postProducto, create, hcp] at h
  | ok v =>
    obtain ⟨nv, pv, qv, bv⟩ := v
    cases nv with
    | none => simp [postProducto, create, hcp] at h
    | some nm =>
      cases pv with
      | none => simp [postProducto, create, hcp] at h
      | some pr =>
        cases qv with
        | none => simp [postProducto, create, hcp] at h
        | some qt =>
          simp only [postProducto, create, hcp, Prod.mk.injEq, HttpResponse.mk.injEq,
            Bool.false_eq_true, if_false, Body.record.injEq, true_and] at h
          obtain ⟨hr, hs⟩ := h
          subst hs
          subst hr
          have hid : validId (genId s.nextId) = true := validId_genId s.nextId
          have hfd : findDoc
              (s.docs ++ [⟨genId s.nextId, nm, pr, qt, bv.getD brandDefault, now, now⟩])
              (genId s.nextId) =
                some ⟨genId s.nextId, nm, pr, qt, bv.getD brandDefault, now, now⟩ :=
            findDoc_append_fresh s.docs
              ⟨genId s.nextId, nm, pr, qt, bv.getD brandDefault, now, now⟩
              (genId s.nextId) hfresh rfl
          simp [getProductoById, findById, hid, hfd]

/-- C6, witness: create in the empty store, then read it back. -/
theorem c6_witness :
    (∀ d ∈ store0.docs, d.id ≠ genId store0.nextId) ∧
      getProductoById demoStore demoProduct.id false = ⟨200, Body.record demoProduct⟩ :=
  ⟨by decide,
    c6_roundtrip store0 demoPayload 3 demoProduct demoStore (by decide) (by decide)⟩

/-- C7: two successive `DELETE`s on the id of a stored record (ids
being unique in the store): the first returns 200 with
`{message: 'Producto eliminado'}` and removes the record, the second
returns 404 with `{error: 'Producto no encontrado'}`. -/
theorem c7_delete_twice (s : Store) (i : String) (r : Product)
    (hid : validId i = true) (hnd : (s.docs.map Product.id).Nodup)
    (hfind : findDoc s.docs i = some r) :
    (deleteProducto s i false).1 = ⟨200, Body.message "Producto eliminado"⟩ ∧
      findDoc (deleteProducto s i false).2.docs i = none ∧
      (deleteProducto (deleteProducto s i false).2 i false).1 =
        ⟨404, Body.errMsg "Producto no encontrado"⟩ := by
  have h1 : deleteProducto s i false =
      (⟨200, Body.message "Producto eliminado"⟩, ⟨removeFirst s.docs i, s.nextId⟩) := by
    simp [deleteProducto, findByIdAndDelete, hid, hfind]
  have hrm : findDoc (removeFirst s.docs i) i = none := findDoc_removeFirst s.docs i hnd
  refine ⟨by rw [h1], by rw [h1]; exact hrm, ?_⟩
  rw [h1]
  simp [deleteProducto, findByIdAndDelete, hid, hrm]

/-- C7, witness on the demo store. -/
theorem c7_witness :
    (validId (genId 0) = true ∧ (demoStore.docs.map Product.id).Nodup ∧
        findDoc demoStore.docs (genId 0) = some demoProduct) ∧
      ((deleteProducto demoStore (genId 0) false).1 =
          ⟨200, Body.message "Producto eliminado"⟩ ∧
        findDoc (deleteProducto demoStore (genId 0) false).2.docs (genId 0) = none ∧
        (deleteProducto (deleteProducto demoStore (genId 0) false).2 (genId 0) false).1 =
          ⟨404, Body.errMsg "Producto no encontrado"⟩) :=
  ⟨⟨by decide, by decide, by decide⟩,
    c7_delete_twice demoStore (genId 0) demoProduct (by decide) (by decide) (by decide)⟩

/-- C8: for a well-formed id matching no stored record, `GET /:id`
returns 404 with exactly `{error: 'Producto no encontrado'}`, and
`PUT /:id` (with a body whose supplied fields all cast) and
`DELETE /:id` fail the same way with 404. -/
theorem c8_notfound_404 (s : Store) (i : String) (p : Payload) (now : Nat)
    (nv : Option String) (pv qv : Option Int) (bv : Option String)
    (hid : validId i = true) (hfind : findDoc s.docs i = none)
    (hcp : castPayload p = Except.ok (nv, pv, qv, bv)) :
    getProductoById s i false = ⟨404, Body.errMsg "Producto no encontrado"⟩ ∧
      (putProducto s i p false now).1 = ⟨404, Body.errMsg "Producto no encontrado"⟩ ∧
      (deleteProducto s i false).1 = ⟨404, Body.errMsg "Producto no encontrado"⟩ := by
  refine ⟨?_, ?_, ?_⟩
  · simp [getProductoById, findById, hid, hfind]
  · simp [putProducto, findByIdAndUpdate, hid, hcp, hfind]
  · simp [deleteProducto, findByIdAndDelete, hid, hfind]

/-- C8, witness: a fresh well-formed id against the demo store. -/
theorem c8_witness :
    (validId (genId 5) = true ∧ findDoc demoStore.docs (genId 5) = none ∧
        castPayload emptyPayload = Except.ok (none, none, none, none)) ∧
      (getProductoById demoStore (genId 5) false =
          ⟨404, Body.errMsg "Producto no encontrado"⟩ ∧
        (putProducto demoStore (genId 5) emptyPayload false 9).1 =
          ⟨404, Body.errMsg "Producto no encontrado"⟩ ∧
        (deleteProducto demoStore (genId 5) false).1 =
          ⟨404, Body.errMsg "Producto no encontrado"⟩) :=
  ⟨⟨by decide, by decide, rfl⟩,
    c8_notfound_404 demoStore (genId 5) emptyPayload 9 none none none none
      (by decide) (by decide) rfl⟩

/-- C9: every path through the `POST` handler responds either 201 or
400 with an `{error: msg}` body — validation failures and
store/connectivity failures alike land in the single catch branch
that sends 400; no path produces 500. -/
theorem c9_post_no_500 (s : Store) (p : Payload) (fail : Bool) (now : Nat) :
    ((postProducto s p fail now).1.status = 201 ∨
      ((postProducto s p fail now).1.status = 400 ∧
        ∃ m, (postProducto s p fail now).1.body = Body.errMsg m)) ∧
      (postProducto s p fail now).1.status ≠ 500 := by
  cases h : create s p fail now with
  | ok v =>
    obtain ⟨r, s1⟩ := v
    simp [postProducto, h]
  | error e => simp [postProducto, h]

/-- C10: a successful create whose payload omits `brand` persists the
record with `brand` equal to the string `"0"` — the schema's numeric
default `0` cast to the path's `String` type. -/
theorem c10_brand_default (s : Store) (p : Payload) (fail : Bool) (now : Nat)
    (r : Product) (s' : Store)
    (hb : p.brand = none)
    (h : postProducto s p fail now = (⟨201, Body.record r⟩, s')) :
    r.brand = "0" := by
  cases hcp : castPayload p with
  | error m => simp [postProducto, create, hcp] at h
  | ok v =>
    obtain ⟨nv, pv, qv, bv⟩ := v
    have hbv : bv = none := by
      obtain ⟨h1, h2, h3, h4⟩ := castPayload_ok_inv p nv pv qv bv hcp
      rw [hb] at h4
      cases bv with
      | none => rfl
      | some a => simp [castOpt] at h4
    subst hbv
    cases nv with
    | none => simp [postProducto, create, hcp] at h
    | some nm =>
      cases pv with
      | none => simp [postProducto, create, hcp] at h
      | some pr =>
        cases qv with
        | none => simp [postProducto, create, hcp] at h
        | some qt =>
          cases fail with
          | true => simp [postProducto, create, hcp] at h
          | false =>
            simp only [postProducto, create, hcp, Prod.mk.injEq, HttpResponse.mk.injEq,
              Bool.false_eq_true, if_false, Body.record.injEq, true_and] at h
            obtain ⟨hr, _⟩ := h
            rw [← hr]
            rfl

/-- C10, witness: the demo creation, whose payload omits `brand`. -/
theorem c10_witness :
    demoPayload.brand = none ∧
      postProducto store0 demoPayload false 3 = (⟨201, Body.record demoProduct⟩, demoStore) ∧
      demoProduct.brand = "0" :=
  ⟨rfl, by decide,
    c10_brand_default store0 demoPayload false 3 demoProduct demoStore rfl (by decide)⟩

end InventoryApi
